import Mathlib

/-!
Verification of the dorothy Okta adversary-emulation toolkit
(`src/dorothy/core.py` and the `modify_zone`, `get_user`, `get_apps`
modules) against its natural-language specification.

The Python fragments under scrutiny are shallowly embedded: pure data
manipulation becomes Lean functions, exception propagation becomes an
explicit `PyResult`, and each network call is a parameter describing what
the `requests` session would have produced (either an exception raised by
the transport, or a response with a status code, reason phrase and JSON
body).  Console printing, log-file writes and `time.sleep` calls are side
effects with no bearing on any claim and are not modelled.
-/

set_option autoImplicit false

namespace Dorothy

/-- Python exception kinds raised by the embedded fragments.
`attributeError` models the `AttributeError` raised when an attribute such
as `.ok` is read off `None`; `keyError` models a missing dict key. -/
inductive PyExn where
  | attributeError (msg : String)
  | keyError (key : String)
  deriving Repr, DecidableEq

/-- Result of running a Python fragment: a normal return value, or an
exception propagating out of the fragment to its caller. -/
inductive PyResult (α : Type) where
  | ok (a : α)
  | raised (e : PyExn)
  deriving Repr, DecidableEq

/-- Sequencing of Python statements: a raised exception skips the rest of
the caller's body. -/
def PyResult.bind {α β : Type} : PyResult α → (α → PyResult β) → PyResult β
  | .ok a, f => f a
  | .raised e, _ => .raised e

/-- The exception raised by `response.ok` when `response` is `None`
(every `except` block in `core.py` sets `response = None` and the very
next statement reads `response.ok`). -/
def attrOkError : PyExn := .attributeError "NoneType object has no attribute ok"

/-! ## Option Store (`core.py` lines 615-664)

A module's option store is the Python dict
`{name: {"value": ..., "required": ..., "help": ...}}`.  Python dicts
iterate in insertion order, so the store is embedded as an association
list.  An option's `value` starts as `None` and is later either a string
or (for the `group_ids` key) a list of strings. -/

/-- The `value` field of a module option: `None`, a string, or a list of
strings (produced by the comma split for `group_ids`). -/
inductive OptionValue where
  | none
  | str (s : String)
  | list (l : List String)
  deriving Repr, DecidableEq

/-- Python truthiness of an option's stored `value` (`not v.get("value")`
in `check_module_options`): `None`, the empty string and the empty list
are falsy. -/
def OptionValue.truthy : OptionValue → Bool
  | .none => false
  | .str s => s ≠ ""
  | .list l => !l.isEmpty

/-- One entry of a module's options dict. -/
structure ModuleOption where
  value : OptionValue
  required : Bool
  help : String
  deriving Repr, DecidableEq

/-- A module's options dict, in insertion order. -/
abbrev ModuleOptions := List (String × ModuleOption)

/-- Python truthiness of a click option input (`None` or a string). -/
def pyTruthy : Option String → Bool
  | Option.none => false
  | some s => s ≠ ""

/-- Membership of `c` in the Python string-whitespace set stripped by
`str.strip()`: space, tab, newline, carriage return, vertical tab and
form feed.  (Unicode whitespace is irrelevant for the inputs here.) -/
def isPyWhitespace (c : Char) : Bool :=
  c = ' ' || c = '\t' || c = '\n' || c = '\r' || c = Char.ofNat 11 || c = Char.ofNat 12

/-- Python `s.strip()`: remove leading and trailing whitespace. -/
def pyStrip (s : String) : String :=
  String.mk (((s.data.dropWhile isPyWhitespace).reverse.dropWhile isPyWhitespace).reverse)

/-- Helper for `pySplitComma`: walk the characters, collecting the
current piece in reverse. -/
def pySplitCommaAux : List Char → List Char → List String
  | [], cur => [String.mk cur.reverse]
  | c :: rest, cur =>
    if c = ',' then String.mk cur.reverse :: pySplitCommaAux rest []
    else pySplitCommaAux rest (c :: cur)

/-- Python `s.split(",")`: split at every comma, keeping empty pieces
(so `"a,,b"` gives `["a", "", "b"]` and `""` gives `[""]`). -/
def pySplitComma (s : String) : List String :=
  pySplitCommaAux s.data []

/-- Python `k.replace("_", "-")` for the option names printed in error
messages (a single-character pattern, hence a character map). -/
def dashName (k : String) : String :=
  String.mk (k.data.map fun c => if c = '_' then '-' else c)

/-- Dict read `module_options[k]` (first entry with key `k`). -/
def lookupOpt : ModuleOptions → String → Option ModuleOption
  | [], _ => Option.none
  | (k', o) :: rest, k => if k' = k then some o else lookupOpt rest k

/-- Dict write `module_options[k]["value"] = nv`; `Option.none` when the
key is absent (Python would raise `KeyError`). -/
def setValue : ModuleOptions → String → OptionValue → Option ModuleOptions
  | [], _, _ => Option.none
  | (k', o) :: rest, k, nv =>
    if k' = k then some ((k', { o with value := nv }) :: rest)
    else (setValue rest k nv).map (fun r => (k', o) :: r)

/-- `set_module_options(module_options, new_options)` from `core.py`:
for each provided `(k, v)` pair, a truthy `v` for the `group_ids` key is
stripped and split on commas into a list, a truthy `v` for any other key
is stripped and stored, and a falsy `v` (absent input or empty string)
leaves the store untouched. -/
def set_module_options : ModuleOptions → List (String × Option String) → PyResult ModuleOptions
  | opts, [] => .ok opts
  | opts, (k, v) :: rest =>
    if k = "group_ids" && pyTruthy v then
      match setValue opts k (.list (pySplitComma (pyStrip (v.getD "")))) with
      | some opts' => set_module_options opts' rest
      | Option.none => .raised (.keyError k)
    else if pyTruthy v then
      match setValue opts k (.str (pyStrip (v.getD ""))) with
      | some opts' => set_module_options opts' rest
      | Option.none => .raised (.keyError k)
    else
      set_module_options opts rest

/-- `reset_module_options` from `core.py`: set every option's `value`
to `None`. -/
def reset_module_options (opts : ModuleOptions) : ModuleOptions :=
  opts.map fun kv => (kv.1, { kv.2 with value := OptionValue.none })

/-- `check_module_options` from `core.py`.  The returned pair is the
Python return value (`None` when the dict is empty, since the function
then falls off the end) together with the option name printed in the
error message, dashes for underscores.  Note the source returns inside
the loop in both branches, so only the first entry is ever examined. -/
def check_module_options : ModuleOptions → Option Bool × Option String
  | [] => (Option.none, Option.none)
  | (k, v) :: _ =>
    if v.required && !v.value.truthy then (some true, some (dashName k))
    else (some false, Option.none)

/-- The value the source stores for key `k` on truthy input `v`
(factored out of `set_module_options` for the statements below). -/
def newStoredValue (k v : String) : OptionValue :=
  if k = "group_ids" then .list (pySplitComma (pyStrip v)) else .str (pyStrip v)

/-- Python truthiness of the `error` value returned by
`check_module_options` (`if error:` in each module's `execute`). -/
def errTruthy : Option Bool → Bool
  | some true => true
  | _ => false

/-- A store with a single optional first entry followed by a required,
unset second entry; exhibits the early return of `check_module_options`. -/
def twoOptionStore : ModuleOptions :=
  [("a", { value := OptionValue.none, required := false, help := "optional first option" }),
   ("b", { value := OptionValue.none, required := true, help := "required second option" })]

/-- The `MODULE_OPTIONS` shape shared by the `modify_zone` and `get_user`
modules: a single required option named `id` (the help text differs). -/
def mkIdStore (v : OptionValue) (helpText : String) : ModuleOptions :=
  [("id", { value := v, required := true, help := helpText })]

/-- Rendering of an option value inside an f-string URL (only the string
case is ever exercised by the modules here; `None` renders as the text
`None`, and the list rendering is an approximation never reached because
neither module has a `group_ids` option). -/
def OptionValue.pyStr : OptionValue → String
  | .none => "None"
  | .str s => s
  | .list l => String.intercalate "," l

/-! ## Transport calls

Every HTTP helper in `core.py` runs
`try: response = session.<verb>(...) except: response = None` and then
branches on `response.ok`.  A single call's outcome is therefore either
an exception raised by the session (after which the `response.ok` read
raises `AttributeError`, because `response` is `None`), or a response
carrying a status code, a reason phrase and a typed JSON body.
`response.ok` in the `requests` library is `status_code < 400`.  The
error-envelope fields (`errorCode`, `errorSummary`) of non-ok responses
only feed printed messages and are not carried in the body type. -/

/-- Outcome of one `requests` session call with JSON body type `β`. -/
inductive Call (β : Type) where
  | exn
  | resp (status : Nat) (reason : String) (body : β)
  deriving Repr, DecidableEq

/-- `response.ok` for a response with the given status. -/
def respOk (status : Nat) : Bool := status < 400

/-! ## Pagination walker (`list_users` 415-488, `list_groups` 491-560,
`list_zones` 1028-1099, `list_apps` 1210-1280)

The four harvesters contain the identical `while next_page:` loop: GET
the current URL; on an ok response log and extend the harvested list, on
a non-ok response log the error and `return` (the bare `return` yields
`None`, dropping the items gathered so far); on a session exception set
`response = None`, after which `response.ok` raises `AttributeError`.
The loop continues while the response's `links` carry a `next` URL.

The server is modelled as the list of outcomes the successive GETs
produce, each with its page of items (opaque JSON records) and the
presence of a `next` link.  The result records the Python return value
and the number of GET requests issued. -/

/-- An opaque harvested JSON record. -/
abbrev Item := String

/-- What one page-fetch GET produces. -/
inductive FetchOutcome where
  | exn
  | resp (status : Nat) (reason : String) (items : List Item) (next : Option String)
  deriving Repr, DecidableEq

/-- The shared `while next_page:` loop of the four harvesters, with the
items accumulated so far; returns the Python return value and the count
of GETs issued.  The `[]` case (server model exhausted while the loop
still wants a page) is unreachable in every statement below, which only
apply the loop to traces whose relevant pages are all present. -/
def harvestLoop : List FetchOutcome → List Item → PyResult (Option (List Item)) × Nat
  | [], acc => (PyResult.ok (some acc), 0)
  | FetchOutcome.exn :: _, _ => (PyResult.raised attrOkError, 1)
  | FetchOutcome.resp st _ items nxt :: rest, acc =>
    if respOk st then
      match nxt with
      | some _ =>
        let r := harvestLoop rest (acc ++ items)
        (r.1, r.2 + 1)
      | Option.none => (PyResult.ok (some (acc ++ items)), 1)
    else (PyResult.ok Option.none, 1)

/-- `list_users` from `core.py` (its pagination loop over the transport
trace; the trailing print/save prompts do not change the return value). -/
def list_users (pages : List FetchOutcome) : PyResult (Option (List Item)) × Nat :=
  harvestLoop pages []

/-- `list_groups` from `core.py`; same loop as `list_users`. -/
def list_groups (pages : List FetchOutcome) : PyResult (Option (List Item)) × Nat :=
  harvestLoop pages []

/-- `list_zones` from `core.py`; same loop as `list_users`. -/
def list_zones (pages : List FetchOutcome) : PyResult (Option (List Item)) × Nat :=
  harvestLoop pages []

/-- `list_apps` from `core.py`; same loop as `list_users`. -/
def list_apps (pages : List FetchOutcome) : PyResult (Option (List Item)) × Nat :=
  harvestLoop pages []

/-- Server trace for N pages that all respond with the given status,
reason and items, pages 1..N-1 carrying a `next` link and the last page
none. -/
def mkPages : List (Nat × String × List Item) → List FetchOutcome
  | [] => []
  | [(st, r, items)] => [FetchOutcome.resp st r items Option.none]
  | (st, r, items) :: rest => FetchOutcome.resp st r items (some "next") :: mkPages rest

/-! ## `get_current_user` (`core.py` 197-230)

GETs `/users/me`; on a session exception it logs, prints the canned
URL-or-token message and sets `response = None` - after which the
`response.ok` read raises `AttributeError`.  A non-ok response logs and
returns `None`; an ok response returns the parsed user object (opaque
here). -/

/-- `get_current_user` over the outcome of its single GET. -/
def get_current_user (call : Call Unit) : PyResult (Option Unit) :=
  match call with
  | Call.exn => PyResult.raised attrOkError
  | Call.resp st _ body => if respOk st then .ok (some body) else .ok Option.none

/-! ## Zone objects and the `modify_zone` module -/

/-- The fields of a network-zone JSON object read by `modify_zone`. -/
structure Zone where
  id : String
  name : String
  type : String
  gateways : Option (List String)
  proxies : Option (List String)
  deriving Repr, DecidableEq

/-- The JSON body of a zone-update PUT issued by `rename_zone`. -/
structure ZonePayload where
  type : String
  name : String
  gateways : Option (List String)
  proxies : Option (List String)
  deriving Repr, DecidableEq

/-- An HTTP request issued by a module, as far as the claims observe it. -/
inductive Request where
  | get (url : String)
  | put (url : String) (payload : ZonePayload)
  deriving Repr, DecidableEq

/-- Is this request a PUT? -/
def Request.isPut : Request → Bool
  | Request.put _ _ => true
  | Request.get _ => false

/-- The PUT requests of a trace, in order. -/
def putsOf (trace : List Request) : List Request :=
  trace.filter Request.isPut

/-- `get_zone_object` from `core.py` (1102-1150) over the outcome of its
GET: a session exception leads to the `response.ok` read on `None` and
raises; an ok response returns the parsed zone (a non-empty JSON object,
hence truthy for the `if zone:` test in `execute`); a non-ok response
logs and returns `None`. -/
def get_zone_object : Call Zone → PyResult (Option Zone)
  | Call.exn => PyResult.raised attrOkError
  | Call.resp st _ z => if respOk st then .ok (some z) else .ok Option.none

/-- `rename_zone` from `modify_zone.py` (109-153): one PUT of the zone's
type, gateway and proxy fields with the new name; on an ok response a
confirmation `get_zone_object` GET follows (its return value is
discarded); on a non-ok response the error is printed and the function
returns normally; a session exception on the PUT leads to the
`response.ok` read on `None` and raises.  Returns the Python outcome and
the requests issued. -/
def rename_zone (z : Zone) (newName : String) (put : Call Unit) (confirm : Call Zone) :
    PyResult Unit × List Request :=
  let req := Request.put ("/zones/" ++ z.id)
    { type := z.type, name := newName, gateways := z.gateways, proxies := z.proxies }
  match put with
  | Call.exn => (PyResult.raised attrOkError, [req])
  | Call.resp st _ _ =>
    if respOk st then
      match get_zone_object confirm with
      | PyResult.raised e => (PyResult.raised e, [req, Request.get ("/zones/" ++ z.id)])
      | PyResult.ok _ => (PyResult.ok (), [req, Request.get ("/zones/" ++ z.id)])
    else (PyResult.ok (), [req])

/-- The transport outcomes `modify_zone.execute` can consume: the zone
lookup GET, the two rename PUTs and their confirmation GETs. -/
structure ModifyZoneEnv where
  lookup : Call Zone
  put1 : Call Unit
  confirm1 : Call Zone
  put2 : Call Unit
  confirm2 : Call Zone

namespace ModifyZone

/-- `execute` from `modify_zone.py` (83-106): run `check_module_options`
and stop on a truthy error; read the configured zone id; fetch the zone;
if the zone is present, rename it to `<name> TEMP_STRING` and then
rename it back to `<name>` (the second rename is not gated on the
first's outcome).  Returns the Python outcome and the requests issued. -/
def execute (opts : ModuleOptions) (env : ModifyZoneEnv) : PyResult Unit × List Request :=
  if errTruthy (check_module_options opts).1 then (PyResult.ok (), [])
  else
    match lookupOpt opts "id" with
    | Option.none => (PyResult.raised (PyExn.keyError "id"), [])
    | some o =>
      let getReq := Request.get ("/zones/" ++ o.value.pyStr)
      match get_zone_object env.lookup with
      | PyResult.raised e => (PyResult.raised e, [getReq])
      | PyResult.ok Option.none => (PyResult.ok (), [getReq])
      | PyResult.ok (some z) =>
        let r1 := rename_zone z (z.name ++ " TEMP_STRING") env.put1 env.confirm1
        match r1.1 with
        | PyResult.raised e => (PyResult.raised e, getReq :: r1.2)
        | PyResult.ok _ =>
          let r2 := rename_zone z z.name env.put2 env.confirm2
          (r2.1, getReq :: r1.2 ++ r2.2)

end ModifyZone

/-! ## The `get_user` module -/

/-- `get_user_object` from `core.py` (233-270) over its GET outcome:
returns the Python `error` flag (`True` on a non-ok response, `False` on
an ok one); a session exception leads to the `response.ok` read on
`None` and raises. -/
def get_user_object : Call Unit → PyResult Bool
  | Call.exn => PyResult.raised attrOkError
  | Call.resp st _ _ => if respOk st then .ok false else .ok true

/-- `get_user_groups` from `core.py` (357-401) over its GET outcome:
both response branches return normally (`None`); a session exception
leads to the `response.ok` read on `None` and raises. -/
def get_user_groups : Call Unit → PyResult Unit
  | Call.exn => PyResult.raised attrOkError
  | Call.resp _ _ _ => .ok ()

/-- The transport outcomes `get_user.execute` can consume. -/
structure GetUserEnv where
  userCall : Call Unit
  groupsCall : Call Unit

namespace GetUser

/-- `execute` from `get_user.py` (82-98): run `check_module_options` and
stop on a truthy error; then GET the user object and the user's groups.
Returns the Python outcome and the requests issued. -/
def execute (opts : ModuleOptions) (env : GetUserEnv) : PyResult Unit × List Request :=
  if errTruthy (check_module_options opts).1 then (PyResult.ok (), [])
  else
    match lookupOpt opts "id" with
    | Option.none => (PyResult.raised (PyExn.keyError "id"), [])
    | some o =>
      let uid := o.value.pyStr
      let r1 := Request.get ("/users/" ++ uid)
      match get_user_object (GetUserEnv.userCall env) with
      | PyResult.raised e => (PyResult.raised e, [r1])
      | PyResult.ok _ =>
        let r2 := Request.get ("/users/" ++ uid ++ "/groups")
        match get_user_groups (GetUserEnv.groupsCall env) with
        | PyResult.raised e => (PyResult.raised e, [r1, r2])
        | PyResult.ok _ => (PyResult.ok (), [r1, r2])

end GetUser

/-! ## Event Logger (`index_event`, `core.py` 165-181)

`index_event(es, module, event_type, event)`: when `es` is falsy (no
sink configured) the body is skipped entirely; when a sink is configured
the append `es.index(...)` runs inside `try`, and any exception it
raises is caught, logged and reported as a warning.  The record contents
(timestamp, md5 content id, module, severity, message) only feed the
sink and are immaterial to the control flow the claim is about. -/

/-- What happened inside `index_event`. -/
inductive IndexOutcome where
  | noSink
  | indexed
  | warned
  deriving Repr, DecidableEq

/-- `index_event` over whether a sink is configured and over what the
sink append would do if attempted (return, or raise with a message). -/
def index_event (es : Bool) (sinkResult : Except String Unit) : PyResult IndexOutcome :=
  if es then
    match sinkResult with
    | Except.ok _ => .ok IndexOutcome.indexed
    | Except.error _ => .ok IndexOutcome.warned
  else .ok IndexOutcome.noSink

/-- A concrete zone used by closed statements below. -/
def demoZone : Zone :=
  { id := "z1", name := "Zone A", type := "IP", gateways := some ["1.2.3.4-1.2.3.4"],
    proxies := Option.none }

/-! ## Helper lemmas -/

/-- Writing `value` for an existing key updates exactly that entry. -/
theorem setValue_spec (k : String) (nv : OptionValue) (opts : ModuleOptions) :
    ∀ o : ModuleOption, lookupOpt opts k = some o →
      ∃ opts', setValue opts k nv = some opts' ∧
        lookupOpt opts' k = some { o with value := nv } ∧
        ∀ k', k' ≠ k → lookupOpt opts' k' = lookupOpt opts k' := by
  induction opts with
  | nil => intro o h; simp [lookupOpt] at h
  | cons kv rest ih =>
    intro o h
    obtain ⟨k₀, o₀⟩ := kv
    by_cases hk : k₀ = k
    · subst hk
      have h' : o₀ = o := by simpa [lookupOpt] using h
      subst h'
      refine ⟨(k₀, { o₀ with value := nv }) :: rest, by simp [setValue], ?_, ?_⟩
      · simp [lookupOpt]
      · intro k' hk'
        have hne : ¬ k₀ = k' := fun hh => hk' (hh ▸ rfl)
        simp [lookupOpt, hne]
    · simp only [lookupOpt, if_neg hk] at h
      obtain ⟨opts', h1, h2, h3⟩ := ih o h
      refine ⟨(k₀, o₀) :: opts', by simp [setValue, hk, h1], ?_, ?_⟩
      · simp [lookupOpt, hk, h2]
      · intro k' hk'
        by_cases hkk : k₀ = k'
        · simp [lookupOpt, hkk]
        · simp [lookupOpt, hkk, h3 k' hk']

/-- A session call that returned a response never makes `get_zone_object`
raise: both the ok and the error branch return normally. -/
theorem get_zone_object_not_raised (c : Call Zone) (hc : c ≠ Call.exn) :
    ∃ x, get_zone_object c = PyResult.ok x := by
  cases c with
  | exn => exact absurd rfl hc
  | resp st r z =>
    by_cases h : respOk st
    · exact ⟨some z, by simp [get_zone_object, h]⟩
    · exact ⟨Option.none, by simp [get_zone_object, h]⟩

/-- Whatever the PUT and the confirmation GET produce, `rename_zone`
issues exactly one PUT, carrying the zone's type, gateway and proxy
fields and the new name. -/
theorem rename_zone_puts (z : Zone) (nm : String) (put : Call Unit) (confirm : Call Zone) :
    putsOf (rename_zone z nm put confirm).2
      = [Request.put ("/zones/" ++ z.id)
          { type := z.type, name := nm, gateways := z.gateways, proxies := z.proxies }] := by
  cases put with
  | exn => simp [rename_zone, putsOf, Request.isPut]
  | resp s r b =>
    by_cases h : respOk s
    · cases hgc : get_zone_object confirm with
      | raised e => simp [rename_zone, h, hgc, putsOf, Request.isPut]
      | ok x => simp [rename_zone, h, hgc, putsOf, Request.isPut]
    · simp [rename_zone, h, putsOf, Request.isPut]

/-- `rename_zone` returns normally when its PUT produced a response and,
in case that response was ok, the confirmation GET also produced a
response. -/
theorem rename_zone_returns (z : Zone) (nm : String) (s : Nat) (r : String)
    (confirm : Call Zone) (hc : respOk s = true → confirm ≠ Call.exn) :
    (rename_zone z nm (Call.resp s r ()) confirm).1 = PyResult.ok () := by
  by_cases h : respOk s
  · obtain ⟨x, hx⟩ := get_zone_object_not_raised confirm (hc h)
    simp [rename_zone, h, hx]
  · simp [rename_zone, h]

/-- Trace of `ModifyZone.execute` when validation passes, the lookup
returns a zone and the first rename returns normally. -/
theorem modify_zone_trace_of_zone (opts : ModuleOptions) (env : ModifyZoneEnv)
    (o : ModuleOption) (z : Zone)
    (hchk : errTruthy (check_module_options opts).1 = false)
    (hopt : lookupOpt opts "id" = some o)
    (hzone : get_zone_object (ModifyZoneEnv.lookup env) = PyResult.ok (some z))
    (hr1 : (rename_zone z (z.name ++ " TEMP_STRING") (ModifyZoneEnv.put1 env)
        (ModifyZoneEnv.confirm1 env)).1 = PyResult.ok ()) :
    ModifyZone.execute opts env
      = ((rename_zone z z.name (ModifyZoneEnv.put2 env) (ModifyZoneEnv.confirm2 env)).1,
         Request.get ("/zones/" ++ o.value.pyStr)
           :: (rename_zone z (z.name ++ " TEMP_STRING") (ModifyZoneEnv.put1 env)
                (ModifyZoneEnv.confirm1 env)).2
           ++ (rename_zone z z.name (ModifyZoneEnv.put2 env) (ModifyZoneEnv.confirm2 env)).2) := by
  simp [ModifyZone.execute, hchk, hopt, hzone, hr1]

/-- Trace of `ModifyZone.execute` when validation passes but the zone
lookup got a non-ok response: the lone GET, no PUT. -/
theorem modify_zone_trace_of_no_zone (opts : ModuleOptions) (env : ModifyZoneEnv)
    (o : ModuleOption)
    (hchk : errTruthy (check_module_options opts).1 = false)
    (hopt : lookupOpt opts "id" = some o)
    (hzone : get_zone_object (ModifyZoneEnv.lookup env) = PyResult.ok Option.none) :
    ModifyZone.execute opts env = (PyResult.ok (), [Request.get ("/zones/" ++ o.value.pyStr)]) := by
  simp [ModifyZone.execute, hchk, hopt, hzone]

/-- Trace of `ModifyZone.execute` when validation passes but the zone
lookup raised: the lone GET, no PUT, exception propagating. -/
theorem modify_zone_trace_of_raise (opts : ModuleOptions) (env : ModifyZoneEnv)
    (o : ModuleOption) (e : PyExn)
    (hchk : errTruthy (check_module_options opts).1 = false)
    (hopt : lookupOpt opts "id" = some o)
    (hzone : get_zone_object (ModifyZoneEnv.lookup env) = PyResult.raised e) :
    ModifyZone.execute opts env
      = (PyResult.raised e, [Request.get ("/zones/" ++ o.value.pyStr)]) := by
  simp [ModifyZone.execute, hchk, hopt, hzone]

/-- After a prefix of ok pages that all carry a `next` link, a page
fetch answered with an error status makes the harvest loop return the
Python value `None`, dropping everything accumulated so far. -/
theorem harvestLoop_failure (st : Nat) (hst : 400 ≤ st) (r : String)
    (items : List Item) (nxt : Option String) (extra : List FetchOutcome) :
    ∀ (pss : List (List Item)) (acc : List Item),
      harvestLoop (pss.map (fun ps => FetchOutcome.resp 200 "OK" ps (some "next"))
          ++ FetchOutcome.resp st r items nxt :: extra) acc
        = (PyResult.ok Option.none, pss.length + 1) := by
  intro pss
  induction pss with
  | nil =>
    intro acc
    have h : respOk st = false := by simp [respOk]; omega
    simp [harvestLoop, h]
  | cons ps rest ih =>
    intro acc
    have h200 : respOk 200 = true := by decide
    simp [harvestLoop, h200, ih (acc ++ ps)]

/-- When every page of a complete trace is answered with an ok status,
the harvest loop returns all pages' items after the accumulator, in page
order, and issues exactly one GET per page. -/
theorem harvestLoop_ok (extra : List FetchOutcome) :
    ∀ pages : List (Nat × String × List Item), pages ≠ [] →
      (∀ p ∈ pages, p.1 < 400) → ∀ acc : List Item,
      harvestLoop (mkPages pages ++ extra) acc
        = (PyResult.ok (some (acc ++ (pages.map fun p => p.2.2).flatten)), pages.length) := by
  intro pages
  induction pages with
  | nil => intro h; exact absurd rfl h
  | cons p rest ih =>
    intro _ hok acc
    obtain ⟨st, r, items⟩ := p
    have hst : respOk st = true := by
      simp only [respOk, decide_eq_true_eq]
      exact hok (st, r, items) (by simp)
    cases rest with
    | nil => simp [mkPages, harvestLoop, hst]
    | cons q rest' =>
      have ih' := ih (by simp) (fun p hp => hok p (List.mem_cons_of_mem _ hp)) (acc ++ items)
      simp [mkPages, harvestLoop, hst, ih']

/-! ## The claims -/

/-- Claim C1, counterexample to the statement as written: with page 1 ok
(one user, `next` link present) and page 2 answered 403, `list_users`
returns the Python value `None` - not the accumulated items of page 1
alongside a failure signal. -/
theorem list_users_drops_harvest :
    list_users [FetchOutcome.resp 200 "OK" ["u1"] (some "next"),
                FetchOutcome.resp 403 "Forbidden" [] Option.none]
      = (PyResult.ok Option.none, 2) ∧
    (PyResult.ok (Option.none : Option (List Item)), 2)
      ≠ (PyResult.ok (some ["u1"]), 2) := by
  exact ⟨rfl, by decide⟩

/-- Claim C1 (amended): for every paginated harvest (`list_users`,
`list_groups`, `list_zones`, `list_apps`), if the fetch of page k is
answered with a non-2xx status after pages 1..k-1 succeeded, the
operation returns the Python value `None` to the caller - the items
accumulated from pages 1..k-1 are dropped, and the failure is only
logged and printed, not returned. -/
theorem paginated_failure_returns_none (pss : List (List Item)) (st : Nat) (r : String)
    (items : List Item) (nxt : Option String) (extra : List FetchOutcome) (hst : 400 ≤ st) :
    list_users (pss.map (fun ps => FetchOutcome.resp 200 "OK" ps (some "next"))
        ++ FetchOutcome.resp st r items nxt :: extra)
      = (PyResult.ok Option.none, pss.length + 1) ∧
    list_groups (pss.map (fun ps => FetchOutcome.resp 200 "OK" ps (some "next"))
        ++ FetchOutcome.resp st r items nxt :: extra)
      = (PyResult.ok Option.none, pss.length + 1) ∧
    list_zones (pss.map (fun ps => FetchOutcome.resp 200 "OK" ps (some "next"))
        ++ FetchOutcome.resp st r items nxt :: extra)
      = (PyResult.ok Option.none, pss.length + 1) ∧
    list_apps (pss.map (fun ps => FetchOutcome.resp 200 "OK" ps (some "next"))
        ++ FetchOutcome.resp st r items nxt :: extra)
      = (PyResult.ok Option.none, pss.length + 1) := by
  have h := harvestLoop_failure st hst r items nxt extra pss []
  exact ⟨h, h, h, h⟩

/-- Claim C1 (amended), witness at a concrete input. -/
theorem paginated_failure_returns_none_witness :
    list_users [FetchOutcome.resp 200 "OK" ["u1"] (some "next"),
                FetchOutcome.resp 500 "Server Error" [] Option.none]
      = (PyResult.ok Option.none, 2) :=
  (paginated_failure_returns_none [["u1"]] 500 "Server Error" [] Option.none []
    (by decide)).1

/-- Claim C2: a store whose first entry is an optional, unset option and
whose second entry is a required, unset option makes `check_module_options`
return `False` and print nothing - the function returns on the first
iteration in both branches, so the missing required option `b` is never
seen, although the store does contain a required option with an unset
value. -/
theorem check_misses_later_required :
    check_module_options twoOptionStore = (some false, Option.none) ∧
    ("b", { value := OptionValue.none, required := true,
            help := "required second option" }) ∈ twoOptionStore ∧
    ModuleOption.required
      { value := OptionValue.none, required := true, help := "required second option" } = true ∧
    OptionValue.truthy OptionValue.none = false := by
  refine ⟨rfl, by simp [twoOptionStore], rfl, rfl⟩

/-- Claim C3: when the transport call raises, `get_current_user` and
`rename_zone` do not resolve to a Fault value or a `None` result - the
`except` block sets `response = None` and the following `response.ok`
read raises `AttributeError`, which propagates to the caller. -/
theorem transport_exception_propagates :
    get_current_user Call.exn = PyResult.raised attrOkError ∧
    (rename_zone demoZone "Zone A TEMP_STRING" Call.exn Call.exn).1
      = PyResult.raised attrOkError ∧
    attrOkError = PyExn.attributeError "NoneType object has no attribute ok" :=
  ⟨rfl, rfl, rfl⟩

/-- Claim C4: with a configured zone id, when the zone lookup succeeds
for a zone named X, `modify_zone.execute` issues a PUT renaming the zone
to `X TEMP_STRING` and then a PUT renaming it back to `X` - the second
PUT also when the first got a non-2xx answer; and when the zone lookup
fails (non-ok response, or a transport exception), no rename PUT is
issued at all.  The PUT responses are given as responses (the transport
exception case is settled separately under C3), and when the first PUT
is ok its confirmation GET is assumed not to raise. -/
theorem modify_zone_rename_and_revert (zid helpText : String) (hzid : zid ≠ "")
    (z : Zone) (st s1 : Nat) (r r1 : String)
    (confirm1 : Call Zone) (put2 : Call Unit) (confirm2 : Call Zone)
    (hc1 : st < 400 → s1 < 400 → confirm1 ≠ Call.exn) :
    (st < 400 →
      putsOf (ModifyZone.execute (mkIdStore (OptionValue.str zid) helpText)
          ⟨Call.resp st r z, Call.resp s1 r1 (), confirm1, put2, confirm2⟩).2
        = [Request.put ("/zones/" ++ z.id)
             { type := z.type, name := z.name ++ " TEMP_STRING", gateways := z.gateways,
               proxies := z.proxies },
           Request.put ("/zones/" ++ z.id)
             { type := z.type, name := z.name, gateways := z.gateways,
               proxies := z.proxies }]) ∧
    (400 ≤ st →
      putsOf (ModifyZone.execute (mkIdStore (OptionValue.str zid) helpText)
          ⟨Call.resp st r z, Call.resp s1 r1 (), confirm1, put2, confirm2⟩).2 = []) ∧
    (∀ env : ModifyZoneEnv, ModifyZoneEnv.lookup env = Call.exn →
      putsOf (ModifyZone.execute (mkIdStore (OptionValue.str zid) helpText) env).2 = []) := by
  have hchk : errTruthy (check_module_options (mkIdStore (OptionValue.str zid) helpText)).1
      = false := by
    simp [check_module_options, mkIdStore, OptionValue.truthy, errTruthy, hzid]
  have hopt : lookupOpt (mkIdStore (OptionValue.str zid) helpText) "id"
      = some { value := OptionValue.str zid, required := true, help := helpText } := by
    simp [mkIdStore, lookupOpt]
  refine ⟨?_, ?_, ?_⟩
  · intro hlt
    have hstt : respOk st = true := by simp [respOk, hlt]
    have hzone : get_zone_object (Call.resp st r z) = PyResult.ok (some z) := by
      simp [get_zone_object, hstt]
    have hr1 : (rename_zone z (z.name ++ " TEMP_STRING") (Call.resp s1 r1 ()) confirm1).1
        = PyResult.ok () := by
      refine rename_zone_returns z _ s1 r1 confirm1 (fun hs1ok => hc1 hlt ?_)
      simpa [respOk] using hs1ok
    have htr := modify_zone_trace_of_zone (mkIdStore (OptionValue.str zid) helpText)
      ⟨Call.resp st r z, Call.resp s1 r1 (), confirm1, put2, confirm2⟩
      _ z hchk hopt hzone hr1
    rw [htr]
    have hp1 := rename_zone_puts z (z.name ++ " TEMP_STRING") (Call.resp s1 r1 ()) confirm1
    have hp2 := rename_zone_puts z z.name put2 confirm2
    simp only [putsOf] at hp1 hp2
    simp [putsOf, Request.isPut, List.filter_append, hp1, hp2]
  · intro hge
    have hstt : respOk st = false := by simp [respOk]; omega
    have hzone : get_zone_object (Call.resp st r z) = PyResult.ok Option.none := by
      simp [get_zone_object, hstt]
    have htr := modify_zone_trace_of_no_zone (mkIdStore (OptionValue.str zid) helpText)
      ⟨Call.resp st r z, Call.resp s1 r1 (), confirm1, put2, confirm2⟩ _ hchk hopt hzone
    rw [htr]
    simp [putsOf, Request.isPut]
  · intro env henv
    have hzone : get_zone_object (ModifyZoneEnv.lookup env) = PyResult.raised attrOkError := by
      rw [henv]; rfl
    have htr := modify_zone_trace_of_raise (mkIdStore (OptionValue.str zid) helpText)
      env _ attrOkError hchk hopt hzone
    rw [htr]
    simp [putsOf, Request.isPut]

/-- Claim C4, witness: zone id `z1` configured, lookup answered 200 with
`demoZone` (named `Zone A`), first PUT answered 403, second PUT answered
204 - both PUTs are issued, renaming to `Zone A TEMP_STRING` and back to
`Zone A`. -/
theorem modify_zone_rename_and_revert_witness :
    putsOf (ModifyZone.execute (mkIdStore (OptionValue.str "z1") "h")
        ⟨Call.resp 200 "OK" demoZone, Call.resp 403 "Forbidden" (),
         Call.resp 200 "OK" demoZone, Call.resp 204 "No Content" (),
         Call.resp 200 "OK" demoZone⟩).2
      = [Request.put "/zones/z1"
           { type := "IP", name := "Zone A TEMP_STRING",
             gateways := some ["1.2.3.4-1.2.3.4"], proxies := Option.none },
         Request.put "/zones/z1"
           { type := "IP", name := "Zone A",
             gateways := some ["1.2.3.4-1.2.3.4"], proxies := Option.none }] :=
  (modify_zone_rename_and_revert "z1" "h" (by decide) demoZone 200 403 "OK" "Forbidden"
    (Call.resp 200 "OK" demoZone) (Call.resp 204 "No Content" ())
    (Call.resp 200 "OK" demoZone) (by decide)).1 (by decide)

/-- Claim C5: when the server answers N pages (all with ok statuses),
pages 1..N-1 carrying a `next` link and page N none, `list_apps` returns
the pages' items concatenated in page order - a collection whose length
is the sum of the page sizes - and issues exactly N GETs, never
requesting past the page without a `next` link (the trace may hold
anything after page N; it is not consulted). -/
theorem list_apps_success (pages : List (Nat × String × List Item)) (extra : List FetchOutcome)
    (h1 : pages ≠ []) (h2 : ∀ p ∈ pages, p.1 < 400) :
    list_apps (mkPages pages ++ extra)
      = (PyResult.ok (some ((pages.map fun p => p.2.2).flatten)), pages.length) ∧
    ((pages.map fun p => p.2.2).flatten).length = (pages.map fun p => p.2.2.length).sum := by
  constructor
  · exact harvestLoop_ok extra pages h1 h2 []
  · simp [List.length_flatten, Function.comp_def]

/-- Claim C5, witness at a concrete input: two ok pages of sizes 1 and 2
followed by trailing garbage never requested. -/
theorem list_apps_success_witness :
    list_apps (mkPages [(200, "OK", ["a1"]), (200, "OK", ["a2", "a3"])]
        ++ [FetchOutcome.exn])
      = (PyResult.ok (some ["a1", "a2", "a3"]), 2) :=
  (list_apps_success [(200, "OK", ["a1"]), (200, "OK", ["a2", "a3"])]
    [FetchOutcome.exn] (by decide) (by decide)).1

/-- Claim C6: one `set_module_options` call on a store containing key
`k`: a non-empty input overwrites `k`'s stored value (with the comma
split applied for the `group_ids` key and plain storage otherwise,
`newStoredValue`), every other key keeps its entry; and any batch of
inputs that are all empty or absent leaves the entire store unchanged. -/
theorem set_overwrite_and_preserve (opts : ModuleOptions) (k v : String) (o : ModuleOption)
    (hk : lookupOpt opts k = some o) (hv : v ≠ "") :
    (∃ opts', set_module_options opts [(k, some v)] = PyResult.ok opts' ∧
       lookupOpt opts' k = some { o with value := newStoredValue k v } ∧
       ∀ k', k' ≠ k → lookupOpt opts' k' = lookupOpt opts k') ∧
    ∀ updates : List (String × Option String), (∀ u ∈ updates, pyTruthy u.2 = false) →
      set_module_options opts updates = PyResult.ok opts := by
  have ht : pyTruthy (some v) = true := by simp [pyTruthy, hv]
  constructor
  · by_cases hg : k = "group_ids"
    · subst hg
      obtain ⟨opts', h1, h2, h3⟩ :=
        setValue_spec "group_ids" (OptionValue.list (pySplitComma (pyStrip v))) opts o hk
      refine ⟨opts', ?_, ?_, h3⟩
      · simp [set_module_options, ht, h1]
      · simpa [newStoredValue] using h2
    · obtain ⟨opts', h1, h2, h3⟩ :=
        setValue_spec k (OptionValue.str (pyStrip v)) opts o hk
      refine ⟨opts', ?_, ?_, h3⟩
      · simp [set_module_options, hg, ht, h1]
      · simpa [newStoredValue, hg] using h2
  · intro updates hall
    induction updates with
    | nil => rfl
    | cons u rest ih =>
      obtain ⟨ku, vu⟩ := u
      have hu : pyTruthy vu = false := hall (ku, vu) (by simp)
      have ih' := ih (fun u hu' => hall u (List.mem_cons_of_mem _ hu'))
      simp [set_module_options, hu, ih']

/-- Claim C6, witness at a concrete input. -/
theorem set_overwrite_and_preserve_witness :
    (∃ opts', set_module_options (mkIdStore OptionValue.none "h") [("id", some "u9")]
        = PyResult.ok opts' ∧
       lookupOpt opts' "id"
         = some { value := newStoredValue "id" "u9", required := true, help := "h" } ∧
       ∀ k', k' ≠ "id" →
         lookupOpt opts' k' = lookupOpt (mkIdStore OptionValue.none "h") k') ∧
    ∀ updates : List (String × Option String), (∀ u ∈ updates, pyTruthy u.2 = false) →
      set_module_options (mkIdStore OptionValue.none "h") updates
        = PyResult.ok (mkIdStore OptionValue.none "h") :=
  set_overwrite_and_preserve (mkIdStore OptionValue.none "h") "id" "u9"
    { value := OptionValue.none, required := true, help := "h" } rfl (by decide)

/-- Claim C7: for the two module execute paths with a required option
(`modify_zone.execute` and `get_user.execute`), a store whose required
`id` option has a falsy (unset or empty) value makes execute return
before issuing any HTTP request, whatever the transport would have
answered. -/
theorem execute_aborts_without_network (v : OptionValue) (h1 h2 : String)
    (envZ : ModifyZoneEnv) (envU : GetUserEnv) (hv : OptionValue.truthy v = false) :
    (ModifyZone.execute (mkIdStore v h1) envZ).2 = [] ∧
    (GetUser.execute (mkIdStore v h2) envU).2 = [] := by
  have hchk1 : errTruthy (check_module_options (mkIdStore v h1)).1 = true := by
    simp [check_module_options, mkIdStore, errTruthy, hv]
  have hchk2 : errTruthy (check_module_options (mkIdStore v h2)).1 = true := by
    simp [check_module_options, mkIdStore, errTruthy, hv]
  constructor
  · simp [ModifyZone.execute, hchk1]
  · simp [GetUser.execute, hchk2]

/-- Claim C7, witness at a concrete input (unset `id`, transport that
would raise on any call). -/
theorem execute_aborts_without_network_witness :
    (ModifyZone.execute (mkIdStore OptionValue.none "hz")
        ⟨Call.exn, Call.exn, Call.exn, Call.exn, Call.exn⟩).2 = [] ∧
    (GetUser.execute (mkIdStore OptionValue.none "hu") ⟨Call.exn, Call.exn⟩).2 = [] :=
  execute_aborts_without_network OptionValue.none "hz" "hu"
    ⟨Call.exn, Call.exn, Call.exn, Call.exn, Call.exn⟩ ⟨Call.exn, Call.exn⟩ (by decide)

/-- Claim C8: on a store whose only option is the required `id`, setting
`id` to `u123` stores the value, and `check_module_options` after
`reset_module_options` reports the validation error naming `id`. -/
theorem option_round_trip (helpText : String) (v0 : OptionValue) :
    set_module_options [("id", { value := v0, required := true, help := helpText })]
        [("id", some "u123")]
      = PyResult.ok
          [("id", { value := OptionValue.str "u123", required := true, help := helpText })] ∧
    check_module_options (reset_module_options
        [("id", { value := OptionValue.str "u123", required := true, help := helpText })])
      = (some true, some "id") :=
  ⟨rfl, rfl⟩

/-- Claim C9: `index_event` with no sink configured does nothing, and
whatever the sink append would do - return or raise - `index_event`
never raises, so a caller sequencing it before the rest of its body gets
exactly the result it would have had if the append had succeeded. -/
theorem index_event_never_aborts {β : Type} (es : Bool) (r : Except String Unit)
    (k : PyResult β) :
    index_event false r = PyResult.ok IndexOutcome.noSink ∧
    PyResult.bind (index_event es r) (fun _ => k) = k := by
  cases es <;> cases r <;> exact ⟨rfl, rfl⟩

/-- Claim C10: a truthy input for an ordinary key is stored as its
whitespace-stripped form, and for `group_ids` the raw input is first
stripped and then split on commas - the comma-separated pieces are kept
verbatim, as the concrete split of `" a , b "` into `["a ", " b"]`
shows. -/
theorem set_strips_before_split (opts : ModuleOptions) (k v : String) (o : ModuleOption)
    (hk : lookupOpt opts k = some o) (hv : v ≠ "") :
    (k ≠ "group_ids" →
      ∃ opts', set_module_options opts [(k, some v)] = PyResult.ok opts' ∧
        lookupOpt opts' k = some { o with value := OptionValue.str (pyStrip v) }) ∧
    (k = "group_ids" →
      ∃ opts', set_module_options opts [(k, some v)] = PyResult.ok opts' ∧
        lookupOpt opts' k
          = some { o with value := OptionValue.list (pySplitComma (pyStrip v)) }) ∧
    pySplitComma (pyStrip " a , b ") = ["a ", " b"] ∧
    pyStrip "  u123  " = "u123" := by
  have ht : pyTruthy (some v) = true := by simp [pyTruthy, hv]
  refine ⟨?_, ?_, by decide, by decide⟩
  · intro hg
    obtain ⟨opts', h1, h2, _⟩ := setValue_spec k (OptionValue.str (pyStrip v)) opts o hk
    exact ⟨opts', by simp [set_module_options, hg, ht, h1], h2⟩
  · intro hg
    subst hg
    obtain ⟨opts', h1, h2, _⟩ :=
      setValue_spec "group_ids" (OptionValue.list (pySplitComma (pyStrip v))) opts o hk
    exact ⟨opts', by simp [set_module_options, ht, h1], h2⟩

/-- Claim C10, witness at a concrete input. -/
theorem set_strips_before_split_witness :
    (("id" : String) ≠ "group_ids" →
      ∃ opts', set_module_options (mkIdStore OptionValue.none "h") [("id", some "  u123  ")]
          = PyResult.ok opts' ∧
        lookupOpt opts' "id"
          = some { value := OptionValue.str (pyStrip "  u123  "), required := true,
                   help := "h" }) ∧
    (("id" : String) = "group_ids" →
      ∃ opts', set_module_options (mkIdStore OptionValue.none "h") [("id", some "  u123  ")]
          = PyResult.ok opts' ∧
        lookupOpt opts' "id"
          = some { value := OptionValue.list (pySplitComma (pyStrip "  u123  ")),
                   required := true, help := "h" }) ∧
    pySplitComma (pyStrip " a , b ") = ["a ", " b"] ∧
    pyStrip "  u123  " = "u123" :=
  set_strips_before_split (mkIdStore OptionValue.none "h") "id" "  u123  "
    { value := OptionValue.none, required := true, help := "h" } rfl (by decide)

end Dorothy
